import Mathlib

/-!
Verification of the OBS instant-replay launcher script (obs.py).

The script launches OBS Studio in a background thread, waits a fixed settle
delay, checks that a process handle was produced and that the process is
still alive, then polls an external readiness probe until success, timeout
or process death, and finally issues one replay-toggle control command.

The shallow embedding below models the script as a pure function over an
environment that records the outcomes of all external interactions: whether
the launcher thread produced a process handle, the result of each
obs_process.poll() liveness query, the result and duration of each probe
command invocation, and the result of the toggle command invocation.
Machine effects (logging text, wall-clock jitter) are abstracted; time is
modelled in whole seconds, matching the integer constants of the source.
-/

/-! ## Configuration constants (obs.py lines 14-15 and the inline timeouts) -/

def MAX_WAIT_TIME_SECONDS : Nat := 60

def CHECK_INTERVAL_SECONDS : Nat := 1

/-- Timeout passed to subprocess.run for the readiness check (obs.py line 81). -/
def PROBE_TIMEOUT_SECONDS : Nat := 5

/-- Timeout passed to subprocess.run for the toggle command (obs.py line 157). -/
def TOGGLE_TIMEOUT_SECONDS : Nat := 10

/-! ## Outcomes of external command invocations

A call to subprocess.run (with check=True, capture_output=True and a
timeout) either completes with an exit code and captured output, or raises
FileNotFoundError, TimeoutExpired, or some other exception. These are the
only outcomes the script distinguishes. -/

inductive RunResult where
  | completed (exitCode : Int) (stdout stderr : String)
  | notFound
  | timedOut
  | otherError (msg : String)
deriving DecidableEq, Repr

/-- Embedding of is_obs_responsive (obs.py lines 70-97), as a function of the
outcome of the probe subprocess invocation. subprocess.run with check=True
raises CalledProcessError exactly when the command completes with a non-zero
exit code, so the try branch returns True only for exit code 0; every
except branch (FileNotFoundError, CalledProcessError, TimeoutExpired,
Exception) returns False. -/
def is_obs_responsive (r : RunResult) : Bool :=
  match r with
  | RunResult.completed c _ _ => c == 0
  | RunResult.notFound => false
  | RunResult.timedOut => false
  | RunResult.otherError _ => false

/-! ## Observable events of a run

The events relevant to the ordering guarantees: each liveness query of the
process handle (with whether it reported the process alive), each probe
invocation (with its boolean result), and each control-command invocation. -/

inductive Event where
  | aliveCheck (alive : Bool)
  | probe (ready : Bool)
  | toggle
deriving DecidableEq, Repr

/-- The process handle as the supervisor observes it: the result of the
poll() query made right after the settle delay (obs.py line 115; none means
still running, some c means exited with code c), and the result of the
poll() query made after the k-th poll-interval sleep (obs.py line 137). -/
structure Handle where
  initialPoll : Option Int
  pollAfter : Nat → Option Int

/-- The environment of one run: whether the launcher thread had set
obs_process by the end of the settle delay (obs.py lines 109-111), the
outcome and duration (in whole seconds, bounded by the 5s timeout in any
real execution) of the k-th probe command invocation, and the outcome of
the toggle command invocation. -/
structure Env where
  handle : Option Handle
  probeRuns : Nat → RunResult
  probeDur : Nat → Nat
  toggleRun : RunResult

/-- Result of the readiness poll loop: whether obs_is_ready was set, the
exit code observed if the process died during the wait, the number of probe
invocations made, the elapsed time (seconds since start_time) when the loop
exited, and the observable events in order. -/
structure LoopResult where
  ready : Bool
  diedCode : Option Int
  probes : Nat
  finalElapsed : Nat
  events : List Event
deriving DecidableEq, Repr

/-- Embedding of the poll loop (obs.py lines 125-140):

  while time.time() - start_time < MAX_WAIT_TIME_SECONDS:
      if is_obs_responsive(): obs_is_ready = True; break
      time.sleep(CHECK_INTERVAL_SECONDS)
      if obs_process and obs_process.poll() is not None: break

k counts probe invocations made so far; elapsed is time.time() - start_time
in whole seconds. Each non-breaking iteration advances elapsed by the probe
duration plus the 1-second sleep, so the loop terminates. -/
def pollLoop (env : Env) (hd : Handle) (k : Nat) (elapsed : Nat) : LoopResult :=
  if h : elapsed < MAX_WAIT_TIME_SECONDS then
    if is_obs_responsive (env.probeRuns k) then
      { ready := true, diedCode := none, probes := 1,
        finalElapsed := elapsed + env.probeDur k,
        events := [Event.probe true] }
    else
      match hd.pollAfter k with
      | some c =>
        { ready := false, diedCode := some c, probes := 1,
          finalElapsed := elapsed + env.probeDur k + CHECK_INTERVAL_SECONDS,
          events := [Event.probe false, Event.aliveCheck false] }
      | none =>
        let r := pollLoop env hd (k + 1)
          (elapsed + env.probeDur k + CHECK_INTERVAL_SECONDS)
        { ready := r.ready, diedCode := r.diedCode, probes := r.probes + 1,
          finalElapsed := r.finalElapsed,
          events := Event.probe false :: Event.aliveCheck true :: r.events }
  else
    { ready := false, diedCode := none, probes := 0,
      finalElapsed := elapsed, events := [] }
termination_by MAX_WAIT_TIME_SECONDS - elapsed
decreasing_by
  simp only [CHECK_INTERVAL_SECONDS]
  omega

/-- Terminal states of a run, following the spec's names. The source does
not name states; they correspond to the distinct return paths and log lines
of main (obs.py lines 111-177), with the exit code of the launched process
recorded where the source logs it. -/
inductive TermState where
  | succeeded
  | failedNoHandle
  | failedImmediateExit (exitCode : Int)
  | failedTimeout
  | failedDiedWhileWaiting (exitCode : Int)
  | failedCommand
deriving DecidableEq, Repr

/-- Everything observable about one run of main: the terminal state, the
number of probe and control-command invocations, the process exit status of
the script itself, the elapsed loop time at loop exit (0 when the loop was
never entered), and the ordered event trace. -/
structure RunTrace where
  final : TermState
  probeCalls : Nat
  toggleCalls : Nat
  exitCode : Nat
  loopElapsed : Nat
  events : List Event
deriving DecidableEq, Repr

/-- Embedding of main (obs.py lines 99-178). Every path returns from the
Python function normally and the script never calls sys.exit, so the
process exit status of the script is 0 on every path; exitCode records
this per return point. The toggle invocation (lines 151-175) succeeds
exactly when the command completes with exit code 0 (check=True); the
except arms for FileNotFoundError, CalledProcessError, TimeoutExpired and
Exception all log and fall through to the end of main. -/
def ObsScript.main (env : Env) : RunTrace :=
  match env.handle with
  | none =>
    { final := TermState.failedNoHandle, probeCalls := 0, toggleCalls := 0,
      exitCode := 0, loopElapsed := 0, events := [] }
  | some hd =>
    match hd.initialPoll with
    | some c =>
      { final := TermState.failedImmediateExit c, probeCalls := 0,
        toggleCalls := 0, exitCode := 0, loopElapsed := 0,
        events := [Event.aliveCheck false] }
    | none =>
      let r := pollLoop env hd 0 0
      if r.ready then
        match env.toggleRun with
        | RunResult.completed c out err =>
          if c = 0 then
            { final := TermState.succeeded, probeCalls := r.probes,
              toggleCalls := 1, exitCode := 0, loopElapsed := r.finalElapsed,
              events := Event.aliveCheck true :: r.events ++ [Event.toggle] }
          else
            { final := TermState.failedCommand, probeCalls := r.probes,
              toggleCalls := 1, exitCode := 0, loopElapsed := r.finalElapsed,
              events := Event.aliveCheck true :: r.events ++ [Event.toggle] }
        | _ =>
          { final := TermState.failedCommand, probeCalls := r.probes,
            toggleCalls := 1, exitCode := 0, loopElapsed := r.finalElapsed,
            events := Event.aliveCheck true :: r.events ++ [Event.toggle] }
      else
        match r.diedCode with
        | some c =>
          { final := TermState.failedDiedWhileWaiting c, probeCalls := r.probes,
            toggleCalls := 0, exitCode := 0, loopElapsed := r.finalElapsed,
            events := Event.aliveCheck true :: r.events }
        | none =>
          { final := TermState.failedTimeout, probeCalls := r.probes,
            toggleCalls := 0, exitCode := 0, loopElapsed := r.finalElapsed,
            events := Event.aliveCheck true :: r.events }

/-! ## Filesystem model for the sentinel cleanup (obs.py lines 33-62)

The sentinel directory is modelled as an optional flat list of entries
(each with a name and whether it is a regular file; directory contents are
part of rest); rest stands for every other filesystem entry. Any step of
the cleanup may raise (unlink, is_file, iterdir on a later entry); failAt
gives the index of the entry whose processing raises, if any. The
try/except in clean_sentinel_files absorbs the exception, leaving the
remaining entries untouched. -/

structure Entry where
  name : String
  isFile : Bool
deriving DecidableEq, Repr

structure FileSystem where
  sentinelExists : Bool
  sentinelEntries : List Entry
  rest : List String
deriving DecidableEq, Repr

/-- Does the cleanup delete this entry: item.is_file() and
item.name.startswith of run_ (obs.py line 42). -/
def isRunMarker (e : Entry) : Bool :=
  e.isFile && e.name.startsWith "run_"

/-- The iteration over the sentinel directory (obs.py lines 41-44):
deletes matching entries in order until an exception is raised while
processing the entry at index failAt (if any), which stops the iteration
and leaves all remaining entries in place. -/
def cleanEntries : List Entry → Option Nat → List Entry
  | [], _ => []
  | e :: rest, some 0 => e :: rest
  | e :: rest, failAt =>
    if isRunMarker e then cleanEntries rest (failAt.map (· - 1))
    else e :: cleanEntries rest (failAt.map (· - 1))

/-- Embedding of clean_sentinel_files (obs.py lines 33-48): if the sentinel
directory exists, iterate over it deleting run_ markers; the surrounding
try/except absorbs any exception, so the function is total. -/
def clean_sentinel_files (fs : FileSystem) (failAt : Option Nat) : FileSystem :=
  if fs.sentinelExists then
    { fs with sentinelEntries := cleanEntries fs.sentinelEntries failAt }
  else fs

/-- State after the launcher thread body ran its pre-launch part. -/
structure LaunchState where
  fs : FileSystem
  launchAttempted : Bool
deriving DecidableEq, Repr

/-- Embedding of the start of run_obs_in_thread (obs.py lines 50-61): it
calls clean_sentinel_files and then unconditionally proceeds to the Popen
launch attempt, whatever happened during cleanup. -/
def run_obs_in_thread (fs : FileSystem) (failAt : Option Nat) : LaunchState :=
  { fs := clean_sentinel_files fs failAt, launchAttempted := true }

/-! ## Spec-side ordering predicate

eventsGuarded evs aliveSeen readySeen scans an event trace left to right
and checks that every probe event is preceded by a liveness query that
reported the process alive, and that every toggle event is preceded by a
probe event that returned true (the accumulators record whether such
events were already seen, or are assumed seen at the start). -/

def eventsGuarded : List Event → Bool → Bool → Bool
  | [], _, _ => true
  | Event.aliveCheck b :: rest, aliveSeen, readySeen =>
    eventsGuarded rest (aliveSeen || b) readySeen
  | Event.probe b :: rest, aliveSeen, readySeen =>
    aliveSeen && eventsGuarded rest aliveSeen (readySeen || b)
  | Event.toggle :: rest, aliveSeen, readySeen =>
    readySeen && eventsGuarded rest aliveSeen readySeen

/-! ## Concrete environments used to instantiate the theorems -/

/-- A handle whose process never exits. -/
def aliveHandle : Handle :=
  { initialPoll := none, pollAfter := fun _ => none }

/-- Run in which the launcher thread never set obs_process. -/
def envNoHandle : Env :=
  { handle := none, probeRuns := fun _ => RunResult.timedOut,
    probeDur := fun _ => 0, toggleRun := RunResult.timedOut }

/-- A handle whose process has already exited with code 1 at the
post-settle check. -/
def exitedHandle : Handle :=
  { initialPoll := some 1, pollAfter := fun _ => none }

/-- A handle whose process dies with code 9 during the second
poll-interval sleep. -/
def diesAtOneHandle : Handle :=
  { initialPoll := none, pollAfter := fun k => if k = 1 then some 9 else none }

/-- Run in which the process exits with code 1 before the post-settle
liveness check. -/
def envImmediateExit : Env :=
  { handle := some exitedHandle,
    probeRuns := fun _ => RunResult.timedOut, probeDur := fun _ => 0,
    toggleRun := RunResult.timedOut }

/-- Run in which every probe invocation times out and the process stays
alive throughout. -/
def envTimeout : Env :=
  { handle := some aliveHandle, probeRuns := fun _ => RunResult.timedOut,
    probeDur := fun _ => 0, toggleRun := RunResult.timedOut }

/-- Run in which every probe reports not-ready and the process dies with
code 9 during the second poll-interval sleep. -/
def envDeath : Env :=
  { handle := some diesAtOneHandle,
    probeRuns := fun _ => RunResult.completed 1 "" "",
    probeDur := fun _ => 0, toggleRun := RunResult.timedOut }

/-- Run in which the probe reports ready immediately and the toggle
command then times out. -/
def envToggleFail : Env :=
  { handle := some aliveHandle,
    probeRuns := fun _ => RunResult.completed 0 "" "",
    probeDur := fun _ => 0, toggleRun := RunResult.timedOut }

/-! ## Lemmas about the poll loop -/

/-- The loop reports ready exactly when some probe invocation in it
returned true. -/
lemma pollLoop_ready_iff_probe (env : Env) (hd : Handle) (k e : Nat) :
    (pollLoop env hd k e).ready = true ↔
      Event.probe true ∈ (pollLoop env hd k e).events := by
  induction k, e using pollLoop.induct env hd with
  | case1 k e h hp =>
    rw [pollLoop]
    simp [h, hp]
  | case2 k e h hp c hc =>
    rw [pollLoop]
    simp [h, hp, hc]
  | case3 k e h hp hc ih =>
    rw [pollLoop]
    simp [h, hp, hc]
    simpa using ih
  | case4 k e h =>
    rw [pollLoop]
    simp [h]

/-- Scanning the loop events starting from a state where the process was
already confirmed alive is guard-correct, and the ready accumulator after
the scan is exactly the loop's ready flag. -/
lemma pollLoop_guarded (env : Env) (hd : Handle) (k e : Nat) :
    ∀ tail s, eventsGuarded ((pollLoop env hd k e).events ++ tail) true s =
      eventsGuarded tail true (s || (pollLoop env hd k e).ready) := by
  induction k, e using pollLoop.induct env hd with
  | case1 k e h hp =>
    intro tail s
    rw [pollLoop]
    simp [h, hp, eventsGuarded]
  | case2 k e h hp c hc =>
    intro tail s
    rw [pollLoop]
    simp [h, hp, hc, eventsGuarded]
  | case3 k e h hp hc ih =>
    intro tail s
    rw [pollLoop]
    simp [h, hp, hc, eventsGuarded]
    simpa using ih tail s
  | case4 k e h =>
    intro tail s
    rw [pollLoop]
    simp [h, eventsGuarded]

/-- If every probe invocation reports not-ready and the process stays
alive, the loop ends with neither the ready flag nor a death code set. -/
lemma pollLoop_all_false (env : Env) (hd : Handle)
    (hprobe : ∀ j, is_obs_responsive (env.probeRuns j) = false)
    (hpoll : ∀ j, hd.pollAfter j = none) (k e : Nat) :
    (pollLoop env hd k e).ready = false ∧
      (pollLoop env hd k e).diedCode = none := by
  induction k, e using pollLoop.induct env hd with
  | case1 k e h hp =>
    exact absurd (hprobe k) (by simp [hp])
  | case2 k e h hp c hc =>
    exact absurd (hpoll k) (by simp [hc])
  | case3 k e h hp hc ih =>
    rw [pollLoop]
    simpa [h, hp, hc] using ih
  | case4 k e h =>
    rw [pollLoop]
    simp [h]

/-- The loop makes at most MAX_WAIT_TIME_SECONDS - e probe invocations
when entered at elapsed time e: each iteration advances elapsed by at
least the 1-second poll interval. -/
lemma pollLoop_probes_le (env : Env) (hd : Handle) (k e : Nat) :
    (pollLoop env hd k e).probes ≤ MAX_WAIT_TIME_SECONDS - e := by
  induction k, e using pollLoop.induct env hd with
  | case1 k e h hp =>
    rw [pollLoop]
    simp only [dif_pos h, if_pos hp]
    omega
  | case2 k e h hp c hc =>
    rw [pollLoop]
    simp only [dif_pos h, if_neg hp, hc]
    omega
  | case3 k e h hp hc ih =>
    rw [pollLoop]
    simp only [dif_pos h, if_neg hp, hc]
    simp only [CHECK_INTERVAL_SECONDS] at ih ⊢
    omega
  | case4 k e h =>
    rw [pollLoop]
    simp [h]

/-- If each probe invocation takes at most its 5-second timeout, the
elapsed time at loop exit never exceeds the deadline plus one probe
timeout (the last guard check happens before the overshooting step). -/
lemma pollLoop_elapsed_le (env : Env) (hd : Handle)
    (hdur : ∀ j, env.probeDur j ≤ PROBE_TIMEOUT_SECONDS) (k e : Nat) :
    e ≤ MAX_WAIT_TIME_SECONDS + PROBE_TIMEOUT_SECONDS →
      (pollLoop env hd k e).finalElapsed ≤
        MAX_WAIT_TIME_SECONDS + PROBE_TIMEOUT_SECONDS := by
  induction k, e using pollLoop.induct env hd with
  | case1 k e h hp =>
    intro _
    rw [pollLoop]
    simp only [dif_pos h, if_pos hp]
    have := hdur k
    omega
  | case2 k e h hp c hc =>
    intro _
    rw [pollLoop]
    simp only [dif_pos h, if_neg hp, hc]
    have := hdur k
    simp only [CHECK_INTERVAL_SECONDS]
    omega
  | case3 k e h hp hc ih =>
    intro _
    rw [pollLoop]
    simp only [dif_pos h, if_neg hp, hc]
    have := hdur k
    refine ih ?_
    simp only [CHECK_INTERVAL_SECONDS]
    omega
  | case4 k e h =>
    intro he
    rw [pollLoop]
    simpa [h] using he

/-- If the probes through iteration K all report not-ready, the process is
alive at the first K mid-loop liveness checks and dead (code c) at check
K, and iteration K is still inside the deadline, the loop stops right
there: ready is false, the death code is recorded, and exactly K + 1 probe
invocations were made. -/
lemma pollLoop_death (env : Env) (hd : Handle) (c : Int) :
    ∀ K k e,
      (∀ j, j ≤ K → is_obs_responsive (env.probeRuns (k + j)) = false) →
      (∀ j, j < K → hd.pollAfter (k + j) = none) →
      hd.pollAfter (k + K) = some c →
      (∀ j, j ≤ K → env.probeDur (k + j) ≤ PROBE_TIMEOUT_SECONDS) →
      e + (PROBE_TIMEOUT_SECONDS + CHECK_INTERVAL_SECONDS) * K <
        MAX_WAIT_TIME_SECONDS →
      (pollLoop env hd k e).ready = false ∧
        (pollLoop env hd k e).diedCode = some c ∧
        (pollLoop env hd k e).probes = K + 1 := by
  intro K
  induction K with
  | zero =>
    intro k e hprobe hpolls hpollK _ hbound
    have h : e < MAX_WAIT_TIME_SECONDS := by
      simpa using hbound
    have hp : is_obs_responsive (env.probeRuns k) = false := by
      simpa using hprobe 0 (Nat.le_refl 0)
    have hc : hd.pollAfter k = some c := by simpa using hpollK
    rw [pollLoop]
    simp [h, hp, hc]
  | succ K ih =>
    intro k e hprobe hpolls hpollK hdur hbound
    have h : e < MAX_WAIT_TIME_SECONDS := by
      simp only [PROBE_TIMEOUT_SECONDS, CHECK_INTERVAL_SECONDS] at hbound
      omega
    have hp : is_obs_responsive (env.probeRuns k) = false := by
      simpa using hprobe 0 (Nat.zero_le _)
    have hc : hd.pollAfter k = none := by
      simpa using hpolls 0 (Nat.succ_pos K)
    have hdur0 : env.probeDur k ≤ PROBE_TIMEOUT_SECONDS := by
      simpa using hdur 0 (Nat.zero_le _)
    have hrec := ih (k + 1) (e + env.probeDur k + CHECK_INTERVAL_SECONDS)
      (fun j hj => by
        have heq : k + 1 + j = k + (j + 1) := by omega
        rw [heq]
        exact hprobe (j + 1) (Nat.succ_le_succ hj))
      (fun j hj => by
        have heq : k + 1 + j = k + (j + 1) := by omega
        rw [heq]
        exact hpolls (j + 1) (Nat.succ_lt_succ hj))
      (by
        have heq : k + 1 + K = k + (K + 1) := by omega
        rw [heq]
        exact hpollK)
      (fun j hj => by
        have heq : k + 1 + j = k + (j + 1) := by omega
        rw [heq]
        exact hdur (j + 1) (Nat.succ_le_succ hj))
      (by
        have hg := hdur0
        simp only [PROBE_TIMEOUT_SECONDS, CHECK_INTERVAL_SECONDS] at hbound hg ⊢
        omega)
    rw [pollLoop]
    simp [h, hp, hc, hrec.1, hrec.2.1, hrec.2.2]

/-! ## Lemmas about main -/

/-- When the handle exists and the process was alive at the post-settle
check, the counters and the event trace of the run are determined by the
poll loop: the alive check is recorded first, then the loop events, then a
single toggle exactly when the loop reported ready. -/
lemma main_fields (env : Env) (hd : Handle) (henv : env.handle = some hd)
    (hini : hd.initialPoll = none) :
    (ObsScript.main env).probeCalls = (pollLoop env hd 0 0).probes ∧
      (ObsScript.main env).loopElapsed = (pollLoop env hd 0 0).finalElapsed ∧
      (ObsScript.main env).toggleCalls =
        (if (pollLoop env hd 0 0).ready then 1 else 0) ∧
      (ObsScript.main env).events =
        Event.aliveCheck true :: (pollLoop env hd 0 0).events ++
          (if (pollLoop env hd 0 0).ready then [Event.toggle] else []) := by
  simp only [ObsScript.main, henv, hini]
  by_cases hr : (pollLoop env hd 0 0).ready
  · simp only [hr, if_true]
    cases env.toggleRun with
    | completed c out err => by_cases hc : c = 0 <;> simp [hc]
    | notFound => simp
    | timedOut => simp
    | otherError m => simp
  · simp only [hr, if_false, Bool.false_eq_true]
    cases hdc : (pollLoop env hd 0 0).diedCode <;> simp [hdc]

/-- When the loop did not report ready, the terminal state is the
death-detected failure if a death code was recorded and the timeout
failure otherwise. -/
lemma main_final_notready (env : Env) (hd : Handle) (henv : env.handle = some hd)
    (hini : hd.initialPoll = none) (hr : (pollLoop env hd 0 0).ready = false) :
    (ObsScript.main env).final =
      (match (pollLoop env hd 0 0).diedCode with
        | some c => TermState.failedDiedWhileWaiting c
        | none => TermState.failedTimeout) := by
  simp only [ObsScript.main, henv, hini]
  simp only [hr, if_false, Bool.false_eq_true]
  cases hdc : (pollLoop env hd 0 0).diedCode <;> simp [hdc]

/-- When the loop reported ready, the terminal state is Succeeded if the
toggle command completed with exit code 0 and FailedCommand otherwise. -/
lemma main_final_ready (env : Env) (hd : Handle) (henv : env.handle = some hd)
    (hini : hd.initialPoll = none) (hr : (pollLoop env hd 0 0).ready = true) :
    (ObsScript.main env).final =
      (if is_obs_responsive env.toggleRun then TermState.succeeded
        else TermState.failedCommand) := by
  simp only [ObsScript.main, henv, hini]
  simp only [hr, if_true]
  cases env.toggleRun with
  | completed c out err =>
    by_cases hc : c = 0 <;> simp [hc, is_obs_responsive]
  | notFound => simp [is_obs_responsive]
  | timedOut => simp [is_obs_responsive]
  | otherError m => simp [is_obs_responsive]

/-! ## Lemmas about the sentinel cleanup -/

lemma cleanEntries_nil (f : Option Nat) : cleanEntries [] f = [] := rfl

lemma cleanEntries_cons_zero (e : Entry) (l : List Entry) :
    cleanEntries (e :: l) (some 0) = e :: l := rfl

lemma cleanEntries_cons_none (e : Entry) (l : List Entry) :
    cleanEntries (e :: l) none =
      (if isRunMarker e then cleanEntries l none
        else e :: cleanEntries l none) := rfl

lemma cleanEntries_cons_succ (e : Entry) (l : List Entry) (n : Nat) :
    cleanEntries (e :: l) (some (n + 1)) =
      (if isRunMarker e then cleanEntries l (some n)
        else e :: cleanEntries l (some n)) := rfl

/-- The cleanup never adds, duplicates or reorders entries. -/
lemma cleanEntries_sublist (l : List Entry) :
    ∀ f, List.Sublist (cleanEntries l f) l := by
  induction l with
  | nil =>
    intro f
    rw [cleanEntries_nil]
  | cons e rest ih =>
    intro f
    match f with
    | some 0 =>
      rw [cleanEntries_cons_zero]
    | none =>
      rw [cleanEntries_cons_none]
      by_cases hm : isRunMarker e
      · rw [if_pos hm]
        exact List.Sublist.cons e (ih none)
      · rw [if_neg hm]
        exact List.Sublist.cons₂ e (ih none)
    | some (n + 1) =>
      rw [cleanEntries_cons_succ]
      by_cases hm : isRunMarker e
      · rw [if_pos hm]
        exact List.Sublist.cons e (ih (some n))
      · rw [if_neg hm]
        exact List.Sublist.cons₂ e (ih (some n))

/-- Every entry that is not a run_ marker file survives the cleanup, in
order, whether or not an exception interrupted it. -/
lemma cleanEntries_keeps_nonmarkers (l : List Entry) :
    ∀ f, (cleanEntries l f).filter (fun e => !(isRunMarker e)) =
      l.filter (fun e => !(isRunMarker e)) := by
  induction l with
  | nil =>
    intro f
    rw [cleanEntries_nil]
  | cons e rest ih =>
    intro f
    match f with
    | some 0 =>
      rw [cleanEntries_cons_zero]
    | none =>
      rw [cleanEntries_cons_none]
      by_cases hm : isRunMarker e
      · rw [if_pos hm, ih none]
        simp [List.filter_cons, hm]
      · rw [if_neg hm]
        simp [List.filter_cons, hm, ih none]
    | some (n + 1) =>
      rw [cleanEntries_cons_succ]
      by_cases hm : isRunMarker e
      · rw [if_pos hm, ih (some n)]
        simp [List.filter_cons, hm]
      · rw [if_neg hm]
        simp [List.filter_cons, hm, ih (some n)]

/-! ## Claim theorems -/

/-- Claim C1: the control command is never issued unless a probe returning
true was observed earlier in the run, and every probe (in particular the
successful one) is evaluated only after a liveness query reported the
process alive: the event trace of every run passes the eventsGuarded scan
started with no alive report and no successful probe seen. -/
theorem control_command_ordering (env : Env) :
    eventsGuarded (ObsScript.main env).events false false = true := by
  cases henv : env.handle with
  | none => simp [ObsScript.main, henv, eventsGuarded]
  | some hd =>
    cases hini : hd.initialPoll with
    | some c => simp [ObsScript.main, henv, hini, eventsGuarded]
    | none =>
      rw [(main_fields env hd henv hini).2.2.2]
      by_cases hr : (pollLoop env hd 0 0).ready
      · rw [if_pos hr]
        simp only [eventsGuarded, Bool.false_or, List.append_eq]
        rw [pollLoop_guarded env hd 0 0 [Event.toggle] false]
        simp [eventsGuarded, hr]
      · rw [if_neg hr]
        simp only [eventsGuarded, Bool.false_or, List.append_eq]
        rw [pollLoop_guarded env hd 0 0 [] false]
        simp [eventsGuarded]

/-- Claim C2, counterexample: in the run where the launcher produced no
handle, the script exit status is 0 although the terminal state is
FailedNoHandle, refuting the claim that the exit status is 0 only on full
success (the source never calls sys.exit, so every path exits 0). -/
theorem exit_status_counterexample :
    (ObsScript.main envNoHandle).exitCode = 0 ∧
      (ObsScript.main envNoHandle).final ≠ TermState.succeeded := by
  constructor
  · rfl
  · simp [ObsScript.main, envNoHandle]

/-- Claim C2, amended: the script process exit status is 0 in every
terminal state, success and failure alike; terminal causes are
distinguished only by log output. -/
theorem exit_status_always_zero (env : Env) :
    (ObsScript.main env).exitCode = 0 := by
  cases henv : env.handle with
  | none => simp [ObsScript.main, henv]
  | some hd =>
    cases hini : hd.initialPoll with
    | some c => simp [ObsScript.main, henv, hini]
    | none =>
      simp only [ObsScript.main, henv, hini]
      by_cases hr : (pollLoop env hd 0 0).ready
      · simp only [hr, if_true]
        cases env.toggleRun with
        | completed c out err => by_cases hc : c = 0 <;> simp [hc]
        | notFound => simp
        | timedOut => simp
        | otherError m => simp
      · simp only [hr, if_false, Bool.false_eq_true]
        cases hdc : (pollLoop env hd 0 0).diedCode <;> simp [hdc]

/-- Claim C3: the readiness prober returns true exactly when the probe
command completed with exit status 0 within its timeout, and returns
false (without raising) for command not found, non-zero exit, timeout,
and any other invocation error. -/
theorem is_obs_responsive_spec :
    (∀ r : RunResult, is_obs_responsive r = true ↔
        ∃ out err, r = RunResult.completed 0 out err) ∧
      is_obs_responsive RunResult.notFound = false ∧
      is_obs_responsive RunResult.timedOut = false ∧
      (∀ m, is_obs_responsive (RunResult.otherError m) = false) ∧
      (∀ (c : Int) (out err : String), c ≠ 0 →
        is_obs_responsive (RunResult.completed c out err) = false) := by
  refine ⟨?_, rfl, rfl, fun m => rfl, ?_⟩
  · intro r
    cases r with
    | completed c out err => simp [is_obs_responsive]
    | notFound => simp [is_obs_responsive]
    | timedOut => simp [is_obs_responsive]
    | otherError m => simp [is_obs_responsive]
  · intro c out err hc
    simp [is_obs_responsive, hc]

/-- Witness for C3: a probe command that exits with status 3 yields a
not-ready result. -/
theorem is_obs_responsive_spec_witness :
    is_obs_responsive (RunResult.completed 3 "" "") = false :=
  is_obs_responsive_spec.2.2.2.2 3 "" "" (by decide)

/-- Claim C4: at most one control-command attempt per run; exactly one is
made precisely when some probe returned ready, whatever the iteration; and
a failed control command is terminal, still with exactly one attempt. -/
theorem exactly_one_toggle (env : Env) :
    (ObsScript.main env).toggleCalls ≤ 1 ∧
      ((ObsScript.main env).toggleCalls = 1 ↔
        Event.probe true ∈ (ObsScript.main env).events) ∧
      ((ObsScript.main env).final = TermState.failedCommand →
        (ObsScript.main env).toggleCalls = 1) := by
  cases henv : env.handle with
  | none => refine ⟨?_, ?_, ?_⟩ <;> simp [ObsScript.main, henv]
  | some hd =>
    cases hini : hd.initialPoll with
    | some c => refine ⟨?_, ?_, ?_⟩ <;> simp [ObsScript.main, henv, hini]
    | none =>
      obtain ⟨-, -, htog, hev⟩ := main_fields env hd henv hini
      by_cases hr : (pollLoop env hd 0 0).ready
      · refine ⟨?_, ?_, ?_⟩
        · rw [htog, if_pos hr]
        · rw [htog, if_pos hr, hev, if_pos hr]
          have hmem := (pollLoop_ready_iff_probe env hd 0 0).mp hr
          simp [hmem]
        · intro _
          rw [htog, if_pos hr]
      · have hmem : Event.probe true ∉ (pollLoop env hd 0 0).events := by
          intro hmem
          exact absurd ((pollLoop_ready_iff_probe env hd 0 0).mpr hmem)
            (by simp [hr])
        refine ⟨?_, ?_, ?_⟩
        · rw [htog, if_neg hr]
          omega
        · rw [htog, if_neg hr, hev, if_neg hr]
          simp [hmem]
        · intro hfc
          have hfin := main_final_notready env hd henv hini (by simpa using hr)
          rw [hfc] at hfin
          cases hdc : (pollLoop env hd 0 0).diedCode <;>
            rw [hdc] at hfin <;> exact absurd hfin (by simp)

/-- Witness for C4: in the run where the probe is ready at once and the
toggle command times out, the terminal state is FailedCommand and exactly
one control-command attempt was made. -/
theorem exactly_one_toggle_witness :
    (ObsScript.main envToggleFail).toggleCalls = 1 := by
  have hready : (pollLoop envToggleFail aliveHandle 0 0).ready = true := by
    rw [pollLoop]
    simp [envToggleFail, is_obs_responsive, MAX_WAIT_TIME_SECONDS]
  refine (exactly_one_toggle envToggleFail).2.2 ?_
  rw [main_final_ready envToggleFail aliveHandle rfl rfl hready]
  rfl

/-- Claim C5: if no probe ever reports ready and the process stays alive
throughout, the run ends in FailedTimeout with zero control invocations. -/
theorem probe_never_ready_times_out (env : Env) (hd : Handle)
    (henv : env.handle = some hd) (hini : hd.initialPoll = none)
    (hprobe : ∀ j, is_obs_responsive (env.probeRuns j) = false)
    (hpoll : ∀ j, hd.pollAfter j = none) :
    (ObsScript.main env).final = TermState.failedTimeout ∧
      (ObsScript.main env).toggleCalls = 0 := by
  obtain ⟨hready, hdied⟩ := pollLoop_all_false env hd hprobe hpoll 0 0
  obtain ⟨-, -, htog, -⟩ := main_fields env hd henv hini
  constructor
  · rw [main_final_notready env hd henv hini hready]
    simp [hdied]
  · rw [htog, if_neg (by simp [hready])]

/-- Witness for C5: the always-timed-out-probe run with an always-alive
process ends in FailedTimeout without a control command. -/
theorem probe_never_ready_times_out_witness :
    (ObsScript.main envTimeout).final = TermState.failedTimeout ∧
      (ObsScript.main envTimeout).toggleCalls = 0 :=
  probe_never_ready_times_out envTimeout aliveHandle rfl rfl
    (fun _ => rfl) (fun _ => rfl)

/-- Claim C6: when the settle delay elapses without a process handle, the
run ends in FailedNoHandle with zero probe and zero control invocations. -/
theorem no_handle_terminates_early (env : Env) (henv : env.handle = none) :
    (ObsScript.main env).final = TermState.failedNoHandle ∧
      (ObsScript.main env).probeCalls = 0 ∧
      (ObsScript.main env).toggleCalls = 0 := by
  simp [ObsScript.main, henv]

/-- Witness for C6. -/
theorem no_handle_terminates_early_witness :
    (ObsScript.main envNoHandle).final = TermState.failedNoHandle ∧
      (ObsScript.main envNoHandle).probeCalls = 0 ∧
      (ObsScript.main envNoHandle).toggleCalls = 0 :=
  no_handle_terminates_early envNoHandle rfl

/-- Claim C7: when the post-settle liveness check reports that the process
already exited with code c, the run ends in FailedImmediateExit recording
that exit code, with zero probe invocations. -/
theorem immediate_exit_skips_probe (env : Env) (hd : Handle) (c : Int)
    (henv : env.handle = some hd) (hini : hd.initialPoll = some c) :
    (ObsScript.main env).final = TermState.failedImmediateExit c ∧
      (ObsScript.main env).probeCalls = 0 ∧
      (ObsScript.main env).toggleCalls = 0 := by
  simp [ObsScript.main, henv, hini]

/-- Witness for C7: a process that exited with code 1 right after launch. -/
theorem immediate_exit_skips_probe_witness :
    (ObsScript.main envImmediateExit).final = TermState.failedImmediateExit 1 ∧
      (ObsScript.main envImmediateExit).probeCalls = 0 ∧
      (ObsScript.main envImmediateExit).toggleCalls = 0 :=
  immediate_exit_skips_probe envImmediateExit exitedHandle 1 rfl rfl

/-- Claim C8: if the probes through iteration K report not-ready and the
process dies (code c) during the sleep of iteration K, which is still
inside the deadline, the run stops at that iteration: it ends in the
death-detected failure after exactly K + 1 probe invocations, without
waiting out the 60-second deadline and without a control command. -/
theorem death_while_waiting_stops_run (env : Env) (hd : Handle) (K : Nat)
    (c : Int) (henv : env.handle = some hd) (hini : hd.initialPoll = none)
    (hprobe : ∀ j, j ≤ K → is_obs_responsive (env.probeRuns j) = false)
    (hpolls : ∀ j, j < K → hd.pollAfter j = none)
    (hdies : hd.pollAfter K = some c)
    (hdur : ∀ j, j ≤ K → env.probeDur j ≤ PROBE_TIMEOUT_SECONDS)
    (hbound : (PROBE_TIMEOUT_SECONDS + CHECK_INTERVAL_SECONDS) * K <
      MAX_WAIT_TIME_SECONDS) :
    (ObsScript.main env).final = TermState.failedDiedWhileWaiting c ∧
      (ObsScript.main env).toggleCalls = 0 ∧
      (ObsScript.main env).probeCalls = K + 1 := by
  have hl := pollLoop_death env hd c K 0 0
    (fun j hj => by simpa using hprobe j hj)
    (fun j hj => by simpa using hpolls j hj)
    (by simpa using hdies)
    (fun j hj => by simpa using hdur j hj)
    (by simpa using hbound)
  obtain ⟨hpc, -, htog, -⟩ := main_fields env hd henv hini
  refine ⟨?_, ?_, ?_⟩
  · rw [main_final_notready env hd henv hini hl.1]
    simp [hl.2.1]
  · rw [htog, if_neg (by simp [hl.1])]
  · rw [hpc, hl.2.2]

/-- Witness for C8: the process dies with code 9 during the second sleep;
the run records the death after exactly two probe invocations. -/
theorem death_while_waiting_stops_run_witness :
    (ObsScript.main envDeath).final = TermState.failedDiedWhileWaiting 9 ∧
      (ObsScript.main envDeath).toggleCalls = 0 ∧
      (ObsScript.main envDeath).probeCalls = 2 :=
  death_while_waiting_stops_run envDeath diesAtOneHandle 1 9 rfl rfl
    (fun _ _ => rfl)
    (fun j hj => by
      cases j with
      | zero => rfl
      | succ n => exact absurd hj (by omega))
    rfl
    (fun _ _ => Nat.zero_le _)
    (by decide)

/-- Claim C9: every run reaches a terminal state with a bounded amount of
work: the poll loop makes at most 60 probe invocations, and when each
probe invocation respects its 5-second timeout the elapsed loop time at
exit is at most the 60-second deadline plus one probe timeout. -/
theorem run_duration_bounded (env : Env) :
    (ObsScript.main env).probeCalls ≤ MAX_WAIT_TIME_SECONDS ∧
      ((∀ j, env.probeDur j ≤ PROBE_TIMEOUT_SECONDS) →
        (ObsScript.main env).loopElapsed ≤
          MAX_WAIT_TIME_SECONDS + PROBE_TIMEOUT_SECONDS) := by
  cases henv : env.handle with
  | none =>
    constructor
    · simp only [ObsScript.main, henv]
      omega
    · intro _
      simp only [ObsScript.main, henv]
      omega
  | some hd =>
    cases hini : hd.initialPoll with
    | some c =>
      constructor
      · simp only [ObsScript.main, henv, hini]
        omega
      · intro _
        simp only [ObsScript.main, henv, hini]
        omega
    | none =>
      obtain ⟨hpc, hle, -, -⟩ := main_fields env hd henv hini
      constructor
      · rw [hpc]
        have := pollLoop_probes_le env hd 0 0
        omega
      · intro hdur
        rw [hle]
        exact pollLoop_elapsed_le env hd hdur 0 0 (Nat.zero_le _)

/-- Witness for C9, at the run whose probes all time out (probe durations
all zero). -/
theorem run_duration_bounded_witness :
    (ObsScript.main envTimeout).probeCalls ≤ MAX_WAIT_TIME_SECONDS ∧
      (ObsScript.main envTimeout).loopElapsed ≤
        MAX_WAIT_TIME_SECONDS + PROBE_TIMEOUT_SECONDS :=
  ⟨(run_duration_bounded envTimeout).1,
    (run_duration_bounded envTimeout).2 (fun _ => Nat.zero_le _)⟩

/-- Claim C10: the pre-launch cleanup only ever removes run_ marker files
directly inside the sentinel directory (no other entry is changed, no
entry is added or reordered, every non-marker entry survives), it absorbs
any exception raised along the way, and the launch attempt is made
afterwards in every case. -/
theorem sentinel_cleanup_frame (fs : FileSystem) (failAt : Option Nat) :
    (run_obs_in_thread fs failAt).launchAttempted = true ∧
      (run_obs_in_thread fs failAt).fs.rest = fs.rest ∧
      (run_obs_in_thread fs failAt).fs.sentinelExists = fs.sentinelExists ∧
      List.Sublist (run_obs_in_thread fs failAt).fs.sentinelEntries
        fs.sentinelEntries ∧
      (run_obs_in_thread fs failAt).fs.sentinelEntries.filter
          (fun e => !(isRunMarker e)) =
        fs.sentinelEntries.filter (fun e => !(isRunMarker e)) := by
  by_cases hs : fs.sentinelExists
  · have h2 : (run_obs_in_thread fs failAt).fs =
        { fs with sentinelEntries := cleanEntries fs.sentinelEntries failAt } := by
      simp [run_obs_in_thread, clean_sentinel_files, hs]
    exact ⟨rfl, by rw [h2], by rw [h2],
      by rw [h2]; exact cleanEntries_sublist _ _,
      by rw [h2]; exact cleanEntries_keeps_nonmarkers _ _⟩
  · have h2 : (run_obs_in_thread fs failAt).fs = fs := by
      simp [run_obs_in_thread, clean_sentinel_files, hs]
    exact ⟨rfl, by rw [h2], by rw [h2], by rw [h2], by rw [h2]⟩
